import Mathlib

/-!
Verification of the FlytBase-DSMS mission execution and handoff subsystem.

This file gives a shallow embedding, in Lean, of the Python source under
src/dsms (geo utilities, path generator, simulator engine, and the handoff
tasks), and proves or refutes the specification claims about it.
Floating-point arithmetic is modelled over the real numbers.
-/

noncomputable section

namespace DSMS

/-! ## Geo utilities (src/dsms/utils/geo.py and src/dsms/services/path_generator.py) -/

/-- Python `math.radians`. -/
def radians (x : ℝ) : ℝ := x * Real.pi / 180

/-- Python `math.degrees`. -/
def degrees (x : ℝ) : ℝ := x * 180 / Real.pi

/-- Python `math.atan2 y x`, by case analysis on the quadrant. -/
def atan2 (y x : ℝ) : ℝ :=
  if 0 < x then Real.arctan (y / x)
  else if x < 0 then
    (if 0 ≤ y then Real.arctan (y / x) + Real.pi else Real.arctan (y / x) - Real.pi)
  else
    (if 0 < y then Real.pi / 2 else if y < 0 then -(Real.pi / 2) else 0)

/-- Earth radius in meters, as used by every haversine copy in the source. -/
def earthRadius : ℝ := 6371000

/-- `haversine_distance(lng1, lat1, lng2, lat2)` as defined both in
`dsms/utils/geo.py` and (second, shadowing definition) in
`dsms/services/path_generator.py`: great-circle distance in meters between
`(lng1, lat1)` and `(lng2, lat2)`. -/
def haversine_distance (lng1 lat1 lng2 lat2 : ℝ) : ℝ :=
  let lat1_rad := radians lat1
  let lat2_rad := radians lat2
  let delta_lat := radians (lat2 - lat1)
  let delta_lng := radians (lng2 - lng1)
  let a := Real.sin (delta_lat / 2) ^ 2 +
    Real.cos lat1_rad * Real.cos lat2_rad * Real.sin (delta_lng / 2) ^ 2
  let c := 2 * atan2 (Real.sqrt a) (Real.sqrt (1 - a))
  earthRadius * c

/-- `bearing(lng1, lat1, lng2, lat2)` from `dsms/utils/geo.py`. -/
def bearing (lng1 lat1 lng2 lat2 : ℝ) : ℝ :=
  let lat1_rad := radians lat1
  let lat2_rad := radians lat2
  let delta_lng := radians (lng2 - lng1)
  let x := Real.sin delta_lng * Real.cos lat2_rad
  let y := Real.cos lat1_rad * Real.sin lat2_rad -
    Real.sin lat1_rad * Real.cos lat2_rad * Real.cos delta_lng
  let initial_bearing := atan2 x y
  (degrees initial_bearing + 360) - 360 * ⌊(degrees initial_bearing + 360) / 360⌋

/-- `normalize_longitude` from `dsms/utils/geo.py`, in closed form.  The
source repeatedly subtracts 360 while `lng > 180` and then adds 360 while
`lng < -180`; for a real input the two loops reduce to the ceilings below
(see `normalize_longitude_unfold_above` and `normalize_longitude_unfold_below`,
which restate the loop equations). -/
def normalize_longitude (lng : ℝ) : ℝ :=
  if 180 < lng then lng - 360 * ⌈(lng - 180) / 360⌉
  else if lng < -180 then lng + 360 * ⌈(-180 - lng) / 360⌉
  else lng

/-- `shortest_longitude_diff` from `dsms/utils/geo.py`, in the same closed
form: the source normalizes `lng2 - lng1` with the identical loop pair. -/
def shortest_longitude_diff (lng1 lng2 : ℝ) : ℝ :=
  normalize_longitude (lng2 - lng1)

/-- `interpolate_position((lng1, lat1), (lng2, lat2), fraction)` from
`dsms/utils/geo.py`; returns `(lng, lat)`. -/
def interpolate_position (start finish : ℝ × ℝ) (fraction : ℝ) : ℝ × ℝ :=
  let lng_diff := shortest_longitude_diff start.1 finish.1
  let lng := normalize_longitude (start.1 + lng_diff * fraction)
  let lat := start.2 + (finish.2 - start.2) * fraction
  (lng, lat)

/-! Loop-equation sanity lemmas for the closed form of `normalize_longitude`. -/

theorem normalize_longitude_unfold_above (lng : ℝ) (h : 180 < lng) :
    normalize_longitude lng = normalize_longitude (lng - 360) := by
  unfold normalize_longitude
  rcases lt_or_le 180 (lng - 360) with h2 | h2
  · rw [if_pos h, if_pos h2]
    have : ⌈(lng - 180) / 360⌉ = ⌈(lng - 360 - 180) / 360⌉ + 1 := by
      have : (lng - 180) / 360 = (lng - 360 - 180) / 360 + 1 := by ring
      rw [this, Int.ceil_add_one]
    rw [this]
    push_cast
    ring
  · rw [if_pos h, if_neg (not_lt.mpr h2)]
    have hlow : ¬ (lng - 360 < -180) := by push_neg; linarith
    rw [if_neg hlow]
    have hceil : ⌈(lng - 180) / 360⌉ = 1 := by
      apply Int.ceil_eq_iff.mpr
      constructor
      · push_cast; nlinarith
      · push_cast; nlinarith
    rw [hceil]
    push_cast
    ring

theorem normalize_longitude_unfold_below (lng : ℝ) (h : lng < -180) :
    normalize_longitude lng = normalize_longitude (lng + 360) := by
  unfold normalize_longitude
  have hna : ¬ 180 < lng := by linarith
  rcases lt_or_le (lng + 360) (-180) with h2 | h2
  · rw [if_neg hna, if_pos h]
    have hna2 : ¬ 180 < lng + 360 := by linarith
    rw [if_neg hna2, if_pos h2]
    have : ⌈(-180 - lng) / 360⌉ = ⌈(-180 - (lng + 360)) / 360⌉ + 1 := by
      have : (-180 - lng) / 360 = (-180 - (lng + 360)) / 360 + 1 := by ring
      rw [this, Int.ceil_add_one]
    rw [this]
    push_cast
    ring
  · rw [if_neg hna, if_pos h]
    have hna2 : ¬ 180 < lng + 360 := by nlinarith
    rw [if_neg hna2, if_neg (not_lt.mpr h2)]
    have hceil : ⌈(-180 - lng) / 360⌉ = 1 := by
      apply Int.ceil_eq_iff.mpr
      constructor
      · push_cast; nlinarith
      · push_cast; nlinarith
    rw [hceil]
    push_cast
    ring

/-- The result of `normalize_longitude` always lies in `[-180, 180]`. -/
theorem normalize_longitude_mem (lng : ℝ) :
    -180 ≤ normalize_longitude lng ∧ normalize_longitude lng ≤ 180 := by
  unfold normalize_longitude
  split_ifs with h1 h2
  · have hle : ((lng - 180) / 360 : ℝ) ≤ ⌈(lng - 180) / 360⌉ := Int.le_ceil _
    have hlt : (⌈(lng - 180) / 360⌉ : ℝ) < (lng - 180) / 360 + 1 := Int.ceil_lt_add_one _
    constructor <;> nlinarith
  · have hle : ((-180 - lng) / 360 : ℝ) ≤ ⌈(-180 - lng) / 360⌉ := Int.le_ceil _
    have hlt : (⌈(-180 - lng) / 360⌉ : ℝ) < (-180 - lng) / 360 + 1 := Int.ceil_lt_add_one _
    constructor <;> nlinarith
  · push_neg at h1 h2
    exact ⟨h2, h1⟩

/-- If the input is already in range, `normalize_longitude` is the identity. -/
theorem normalize_longitude_of_mem (lng : ℝ) (h1 : -180 ≤ lng) (h2 : lng ≤ 180) :
    normalize_longitude lng = lng := by
  unfold normalize_longitude
  rw [if_neg (not_lt.mpr h2), if_neg (not_lt.mpr h1)]

/-! ## Path generator (src/dsms/services/path_generator.py)

A GeoJSON coordinate is modelled as a `(lng, lat)` pair of reals; a survey
area is `Option` (absent / lacking a "coordinates" key) of a list of rings. -/

/-- A polygon-ring coordinate: `[lng, lat]` in GeoJSON order. -/
structure Coordinate where
  lng : ℝ
  lat : ℝ

/-- A waypoint, per `dsms/models/mission.py` (`Waypoint` embedded document). -/
structure Waypoint where
  lat : ℝ
  lng : ℝ
  alt : ℝ
  action : String := "fly"
  duration : ℝ := 0

instance : Inhabited Waypoint := ⟨⟨0, 0, 0, "fly", 0⟩⟩

/-- A survey area: `none` models a missing dict or one without a
"coordinates" key; otherwise the list of rings. -/
def SurveyArea : Type := Option (List (List Coordinate))

/-- `normalize_survey_area`: normalize every coordinate's longitude,
leaving latitudes alone. -/
def normalize_survey_area (area : SurveyArea) : SurveyArea :=
  match area with
  | none => none
  | some rings =>
      some (rings.map (fun ring =>
        ring.map (fun c => ⟨normalize_longitude c.lng, c.lat⟩)))

/-- The outer ring `coordinates[0]`; the Python code would raise an
IndexError on an empty ring list, which no caller exercises. -/
def outerRing (rings : List (List Coordinate)) : List Coordinate :=
  rings.headD []

/-- `generate_waypoint_path`: polygon vertices minus the closing duplicate,
first waypoint `fly`, the rest `photo`. -/
def generate_waypoint_path (area : SurveyArea) (altitude : ℝ) : List Waypoint :=
  match area with
  | none => []
  | some rings =>
      let coords := outerRing rings
      (coords.dropLast).enum.map (fun p =>
        ⟨p.2.lat, p.2.lng, altitude, if p.1 > 0 then "photo" else "fly", 0⟩)

/-- `generate_perimeter_path`: every outer-ring vertex in order, `photo`. -/
def generate_perimeter_path (area : SurveyArea) (altitude : ℝ) : List Waypoint :=
  match area with
  | none => []
  | some rings =>
      (outerRing rings).map (fun c => ⟨c.lat, c.lng, altitude, "photo", 0⟩)

/-- One scan line of `generate_crosshatch_path`: x-intersections of the
polygon edges with the horizontal line at `current_lat`. -/
def crosshatchIntersections (coords : List Coordinate) (current_lat : ℝ) : List ℝ :=
  (List.range (coords.length - 1)).filterMap (fun i =>
    let c1 := coords.getD i ⟨0, 0⟩
    let c2 := coords.getD (i + 1) ⟨0, 0⟩
    if (c1.lat ≤ current_lat ∧ current_lat ≤ c2.lat) ∨
       (c2.lat ≤ current_lat ∧ current_lat ≤ c1.lat) then
      if c1.lat ≠ c2.lat then
        some (c1.lng + (current_lat - c1.lat) * (c2.lng - c1.lng) / (c2.lat - c1.lat))
      else none
    else none)

/-- Pair up sorted intersections: `for i in range(0, len - 1, 2)` over
`(intersections[i], intersections[i+1])`. -/
def crosshatchPairs : List ℝ → List (ℝ × ℝ)
  | a :: b :: rest => (a, b) :: crosshatchPairs rest
  | _ => []

/-- Waypoints of one scan line: entry `fly` then exit `photo` per pair,
ordered by the sweep direction. -/
def crosshatchLineWaypoints (inters : List ℝ) (direction : Int)
    (current_lat altitude : ℝ) : List Waypoint :=
  (crosshatchPairs inters).flatMap (fun p =>
    let start_lng := p.1
    let end_lng := p.2
    if direction = 1 then
      [⟨current_lat, start_lng, altitude, "fly", 0⟩,
       ⟨current_lat, end_lng, altitude, "photo", 0⟩]
    else
      [⟨current_lat, end_lng, altitude, "fly", 0⟩,
       ⟨current_lat, start_lng, altitude, "photo", 0⟩])

/-- The crosshatch sweep loop: `while current_lat <= max_lat and
line_count < max_lines`; the fuel argument is `max_lines - line_count`. -/
def crosshatchLoop (coords : List Coordinate) (altitude spacing_degrees max_lat : ℝ) :
    ℝ → Int → Nat → List Waypoint
  | _, _, 0 => []
  | current_lat, direction, fuel + 1 =>
      if current_lat ≤ max_lat then
        let inters := (crosshatchIntersections coords current_lat).mergeSort (· ≤ ·)
        crosshatchLineWaypoints inters direction current_lat altitude ++
          crosshatchLoop coords altitude spacing_degrees max_lat
            (current_lat + spacing_degrees) (-direction) fuel
      else []

/-- `generate_crosshatch_path`: lawn-mower pattern.  The bounding box
`min`/`max` on an empty vertex list would raise in Python; the guard
mirrors that unreachable case by returning `[]`. -/
def generate_crosshatch_path (area : SurveyArea) (altitude : ℝ) (overlap : ℝ) :
    List Waypoint :=
  match area with
  | none => []
  | some rings =>
      let coords := outerRing rings
      match (coords.map (·.lat)).min? with
      | none => []
      | some min_lat =>
          let max_lat := ((coords.map (·.lat)).max?).getD min_lat
          let swath_width := altitude * 0.8
          let spacing_meters := max (swath_width * (1 - overlap / 100)) 10
          let spacing_degrees := spacing_meters / 111000
          crosshatchLoop coords altitude spacing_degrees max_lat min_lat 1 50

/-- `generate_spiral_path`: 5 turns of 12 points from the bounding radius
inward, ending with a 3-second hover at the centroid.  `max` over an empty
generator would raise in Python; modelled by `0` for the empty ring. -/
def generate_spiral_path (area : SurveyArea) (altitude : ℝ) : List Waypoint :=
  match area with
  | none => []
  | some rings =>
      let coords := outerRing rings
      let n : ℝ := coords.length
      let center_lng := (coords.map (·.lng)).sum / n
      let center_lat := (coords.map (·.lat)).sum / n
      let max_radius :=
        match coords.map (fun c => haversine_distance center_lng center_lat c.lng c.lat) with
        | [] => 0
        | d :: ds => ds.foldl max d
      let pts := (List.range (5 * 12)).map (fun (i : Nat) =>
        let t : ℝ := 1 - (i : ℝ) / (5 * 12)
        let radius := max_radius * t
        let angle := (i : ℝ) * (2 * Real.pi / 12)
        let lng_offset := radius * Real.cos angle / 111000 / Real.cos (radians center_lat)
        let lat_offset := radius * Real.sin angle / 111000
        (⟨center_lat + lat_offset, center_lng + lng_offset, altitude, "photo", 0⟩ : Waypoint))
      pts ++ [⟨center_lat, center_lng, altitude, "hover", 3⟩]

/-- `calculate_path_distance`: sum of haversine hops along the waypoints. -/
def calculate_path_distance (waypoints : List Waypoint) : ℝ :=
  if waypoints.length < 2 then 0
  else
    (List.range (waypoints.length - 1)).foldl (fun total i =>
      let wp1 := waypoints.getD i default
      let wp2 := waypoints.getD (i + 1) default
      total + haversine_distance wp1.lng wp1.lat wp2.lng wp2.lat) 0

/-- A generated flight path (`FlightPath` embedded document). -/
structure FlightPath where
  pattern_type : String
  waypoints : List Waypoint
  total_distance : ℝ
  estimated_duration : ℝ

/-- `generate_path`: normalize the survey area, dispatch on the pattern
(anything unknown falls back to the waypoint pattern), and attach distance
and duration.  The Python `int(...)` truncation of the duration is modelled
with the real floor. -/
def generate_path (survey_area : SurveyArea) (pattern : String)
    (altitude : ℝ) (overlap : ℝ) (speed : ℝ) : FlightPath :=
  let area := normalize_survey_area survey_area
  let waypoints :=
    if pattern = "perimeter" then generate_perimeter_path area altitude
    else if pattern = "crosshatch" then generate_crosshatch_path area altitude overlap
    else if pattern = "spiral" then generate_spiral_path area altitude
    else generate_waypoint_path area altitude
  let total_distance := calculate_path_distance waypoints
  let estimated_duration : ℝ := if 0 < speed then ⌊total_distance / speed⌋ else 0
  ⟨pattern, waypoints, total_distance, estimated_duration⟩

/-! ## Simulator engine (src/dsms/simulator/engine.py, class DroneSimulator) -/

/-- Python `round(x, 2)`.  Modelled with the integer rounding of `x * 100`
(the decimal tie-breaking convention differs from Python only at exact
half-multiples of 0.005, which no claim exercises). -/
def round2 (x : ℝ) : ℝ := (round (x * 100) : ℤ) / 100

/-- Python `round(x, 1)`. -/
def round1 (x : ℝ) : ℝ := (round (x * 10) : ℤ) / 10

/-- `BATTERY_DRAIN_RATE = 2.0` (% per minute). -/
def BATTERY_DRAIN_RATE : ℝ := 2

/-- `DroneSimulator._count_travel_waypoints`: leading run of `fly` actions. -/
def count_travel_waypoints (waypoints : List Waypoint) : Nat :=
  (waypoints.takeWhile (fun wp => wp.action == "fly")).length

/-- `DroneSimulator._find_return_waypoint_start`: index of the first
waypoint whose action is `return` or `land`; the length if none exists. -/
def find_return_waypoint_start (waypoints : List Waypoint) : Nat :=
  waypoints.findIdx (fun wp => wp.action == "return" || wp.action == "land")

/-- Mutable state of a `DroneSimulator` instance. -/
structure SimState where
  waypoints : List Waypoint
  current_waypoint_idx : Nat
  travel_waypoint_count : Nat
  return_waypoint_start : Nat
  position : ℝ × ℝ
  altitude : ℝ
  speed : ℝ
  heading : ℝ
  battery : ℝ
  total_distance : ℝ
  travel_distance : ℝ
  return_distance : ℝ
  survey_distance : ℝ
  distance_traveled : ℝ
  survey_distance_traveled : ℝ

/-- `DroneSimulator.is_traveling`. -/
def is_traveling (s : SimState) : Prop :=
  s.current_waypoint_idx < s.travel_waypoint_count

/-- `DroneSimulator.is_surveying`. -/
def is_surveying (s : SimState) : Prop :=
  s.travel_waypoint_count ≤ s.current_waypoint_idx ∧
    s.current_waypoint_idx < s.return_waypoint_start

/-- `DroneSimulator.is_returning`. -/
def is_returning (s : SimState) : Prop :=
  s.return_waypoint_start ≤ s.current_waypoint_idx ∧
    s.current_waypoint_idx < s.waypoints.length

instance (s : SimState) : Decidable (is_traveling s) := by
  unfold is_traveling; infer_instance

instance (s : SimState) : Decidable (is_surveying s) := by
  unfold is_surveying; infer_instance

instance (s : SimState) : Decidable (is_returning s) := by
  unfold is_returning; infer_instance

/-- Haversine hop between waypoints `i` and `i + 1`. -/
def waypointHop (waypoints : List Waypoint) (i : Nat) : ℝ :=
  let wp1 := waypoints.getD i default
  let wp2 := waypoints.getD (i + 1) default
  haversine_distance wp1.lng wp1.lat wp2.lng wp2.lat

/-- `DroneSimulator._calculate_total_distance`. -/
def calculate_total_distance (waypoints : List Waypoint) : ℝ :=
  if waypoints.length < 2 then 0
  else ((List.range (waypoints.length - 1)).map (waypointHop waypoints)).sum

/-- `DroneSimulator._calculate_travel_distance`: hops `0` through
`min(travel_waypoint_count, len - 1)` (so it includes the hop into the
first survey waypoint). -/
def calculate_travel_distance (waypoints : List Waypoint) (travel_count : Nat) : ℝ :=
  if waypoints.length < 2 ∨ travel_count < 1 then 0
  else ((List.range (min travel_count (waypoints.length - 1))).map
    (waypointHop waypoints)).sum

/-- `DroneSimulator._calculate_return_distance`: hops from
`return_waypoint_start` to the end. -/
def calculate_return_distance (waypoints : List Waypoint) (return_start : Nat) : ℝ :=
  if waypoints.length ≤ return_start then 0
  else ((List.range' return_start (waypoints.length - 1 - return_start)).map
    (waypointHop waypoints)).sum

/-- `DroneSimulator.__init__` for a mission carrying `waypoints`,
`current_waypoint_index`, `progress`, `speed` and the assigned drone's
`battery_level`.  `progress > 0` reconstructs the distances travelled from
the persisted progress; otherwise both counters start at zero. -/
def mkSimulator (waypoints : List Waypoint) (current_waypoint_index : Nat)
    (progress : ℝ) (speed : ℝ) (battery : ℝ) : SimState :=
  let travel_count := count_travel_waypoints waypoints
  let return_start := find_return_waypoint_start waypoints
  let first_wp := waypoints.getD (min current_waypoint_index (waypoints.length - 1)) default
  let position : ℝ × ℝ := if waypoints.isEmpty then (0, 0) else (first_wp.lng, first_wp.lat)
  let altitude : ℝ := if waypoints.isEmpty then 50 else first_wp.alt
  let total := calculate_total_distance waypoints
  let travel := calculate_travel_distance waypoints travel_count
  let ret := calculate_return_distance waypoints return_start
  let survey := total - travel - ret
  let survey_traveled := if 0 < progress then (progress / 100) * survey else 0
  let traveled := if 0 < progress then travel + survey_traveled else 0
  { waypoints := waypoints
    current_waypoint_idx := current_waypoint_index
    travel_waypoint_count := travel_count
    return_waypoint_start := return_start
    position := position
    altitude := altitude
    speed := speed
    heading := 0
    battery := battery
    total_distance := total
    travel_distance := travel
    return_distance := ret
    survey_distance := survey
    distance_traveled := traveled
    survey_distance_traveled := survey_traveled }

/-- The telemetry dict built by `DroneSimulator._create_result`. -/
structure TickResult where
  complete : Bool
  position : ℝ × ℝ
  altitude : ℝ
  heading : ℝ
  speed : ℝ
  battery : ℝ
  current_waypoint : Nat
  total_waypoints : Nat
  progress : ℝ
  mission_phase : String
  distance_traveled : ℝ
  survey_distance_traveled : ℝ
  distance_remaining : ℝ

/-- `DroneSimulator._create_result`. -/
def create_result (s : SimState) (complete : Bool) : TickResult :=
  let progress : ℝ :=
    if 0 < s.survey_distance then
      min 100 ((s.survey_distance_traveled / s.survey_distance) * 100)
    else if complete then 100 else 0
  let mission_phase : String :=
    if is_traveling s then "traveling"
    else if is_surveying s then "surveying"
    else if is_returning s then "returning"
    else if complete then "completed"
    else "unknown"
  { complete := complete
    position := s.position
    altitude := round2 s.altitude
    heading := round2 s.heading
    speed := round2 s.speed
    battery := round1 s.battery
    current_waypoint := s.current_waypoint_idx
    total_waypoints := s.waypoints.length
    progress := round2 progress
    mission_phase := mission_phase
    distance_traveled := round2 s.distance_traveled
    survey_distance_traveled := round2 s.survey_distance_traveled
    distance_remaining := round2 (max 0 (s.total_distance - s.distance_traveled)) }

/-- `DroneSimulator.tick(delta_seconds)`: returns the updated simulator
state together with the telemetry result. -/
def tick (s : SimState) (delta_seconds : ℝ) : SimState × TickResult :=
  if s.waypoints.length ≤ s.current_waypoint_idx then
    (s, create_result s true)
  else
    let target_wp := s.waypoints.getD s.current_waypoint_idx default
    let target_pos : ℝ × ℝ := (target_wp.lng, target_wp.lat)
    let target_altitude := target_wp.alt
    let distance_to_target :=
      haversine_distance s.position.1 s.position.2 target_pos.1 target_pos.2
    let max_distance := s.speed * delta_seconds
    let surveyBonus : ℝ → ℝ := fun d => if is_surveying s then d else 0
    if distance_to_target ≤ max_distance then
      let s1 := { s with
        position := target_pos
        altitude := target_altitude
        distance_traveled := s.distance_traveled + distance_to_target
        survey_distance_traveled :=
          s.survey_distance_traveled + surveyBonus distance_to_target
        current_waypoint_idx := s.current_waypoint_idx + 1 }
      if s.waypoints.length ≤ s1.current_waypoint_idx then
        (s1, create_result s1 true)
      else
        let s2 := { s1 with
          heading := bearing s1.position.1 s1.position.2 target_pos.1 target_pos.2
          battery := max 0 (s.battery - BATTERY_DRAIN_RATE * delta_seconds / 60) }
        (s2, create_result s2 false)
    else
      let fraction := max_distance / distance_to_target
      let new_pos := interpolate_position s.position target_pos fraction
      let s1 := { s with
        position := new_pos
        altitude := s.altitude + (target_altitude - s.altitude) * fraction
        distance_traveled := s.distance_traveled + max_distance
        survey_distance_traveled :=
          s.survey_distance_traveled + surveyBonus max_distance }
      let s2 := { s1 with
        heading := bearing new_pos.1 new_pos.2 target_pos.1 target_pos.2
        battery := max 0 (s.battery - BATTERY_DRAIN_RATE * delta_seconds / 60) }
      (s2, create_result s2 false)

/-! ## Handoff and charging tasks (src/dsms/tasks/simulator.py)

The persistent entities are modelled as records; the database is a `World`
holding the one mission owned by the executor, the drone fleet, the bases,
the handoff log, and the background tasks spawned (`.delay(...)` calls),
recorded so that the effects of a call are observable. -/

/-- A drone document (the fields the tasks read or write). -/
structure Drone where
  droneId : String
  status : String
  batteryLevel : ℝ
  location : Option Coordinate
  baseId : Option String
  currentMissionId : Option String

/-- A mission document (the fields the tasks read or write). -/
structure MissionDoc where
  missionId : String
  status : String
  assignedDroneId : Option String
  originBaseId : Option String
  pendingReplacementDroneId : Option String
  handoffLocation : Option Coordinate
  currentWaypointIndex : Nat
  abortReason : Option String
  coverageArea : SurveyArea

/-- A base document. -/
structure Base where
  baseId : String
  status : String
  lat : ℝ
  lng : ℝ

/-- One `log_handoff` entry. -/
structure HandoffLogEntry where
  handoffType : String
  outgoingDroneId : Option String
  incomingDroneId : Option String
  waypointIndex : Nat

/-- The world state the tasks act on. -/
structure World where
  mission : MissionDoc
  drones : List Drone
  bases : List Base
  logs : List HandoffLogEntry
  returnFlights : List String
  replacementFlights : List String

/-- `Drone.objects.get(drone_id=...)`. -/
def getDrone (w : World) (droneId : String) : Option Drone :=
  w.drones.find? (fun d => d.droneId == droneId)

/-- `drone.save()`: replace the fleet entry with the same id. -/
def saveDrone (w : World) (d : Drone) : World :=
  { w with drones := w.drones.map (fun e => if e.droneId == d.droneId then d else e) }

/-- `mission.save()`. -/
def saveMission (w : World) (m : MissionDoc) : World :=
  { w with mission := m }

/-- `log_handoff(...)` (`dsms/models/handoff_log.py`): append an entry. -/
def appendLog (w : World) (entry : HandoffLogEntry) : World :=
  { w with logs := w.logs ++ [entry] }

/-- Descending-battery insertion, modelling `order_by("-battery_level")`. -/
def insertByBatteryDesc (d : Drone) : List Drone → List Drone
  | [] => [d]
  | e :: es =>
      if e.batteryLevel < d.batteryLevel then d :: e :: es
      else e :: insertByBatteryDesc d es

/-- Sort a drone list by battery level, highest first. -/
def sortByBatteryDesc (ds : List Drone) : List Drone :=
  ds.foldr insertByBatteryDesc []

/-- `Drone.objects(status="available").order_by("-battery_level")`. -/
def availableDrones (w : World) : List Drone :=
  sortByBatteryDesc (w.drones.filter (fun d => d.status == "available"))

/-- `Drone.objects(base_id=b, drone_id__ne=c, status="available")`
sorted by battery, highest first. -/
def sameBaseCandidates (w : World) (baseId : String) (excludeId : String) : List Drone :=
  sortByBatteryDesc (w.drones.filter (fun d =>
    d.baseId == some baseId && d.droneId != excludeId && d.status == "available"))

/-- `Drone.objects(drone_id__ne=c, status="available")` sorted by battery. -/
def availableExcluding (w : World) (excludeId : String) : List Drone :=
  sortByBatteryDesc (w.drones.filter (fun d =>
    d.droneId != excludeId && d.status == "available"))

/-- `base_service.find_nearest_base(lat, lng)`: nearest active base
(the geospatial query; ties and the manual fallback both keep the earliest
minimum). -/
def find_nearest_base (w : World) (lat lng : ℝ) : Option Base :=
  (w.bases.filter (fun b => b.status == "active")).foldl
    (fun acc b =>
      match acc with
      | none => some b
      | some a =>
          if haversine_distance lng lat b.lng b.lat <
             haversine_distance lng lat a.lng a.lat then some b else some a)
    none

/-- `mission_service.get_mission_center`: centroid of the outer ring, or
`none` when the coverage area (or its outer ring) is absent or empty. -/
def get_mission_center (m : MissionDoc) : Option (ℝ × ℝ) :=
  match m.coverageArea with
  | none => none
  | some rings =>
      match outerRing rings with
      | [] => none
      | coords =>
          let n : ℝ := coords.length
          some ((coords.map (·.lat)).sum / n, (coords.map (·.lng)).sum / n)

/-- `mission_service.auto_assign_drone`: `Except` models the
`ValidationError` raised when no drone is available. -/
def auto_assign_drone (w : World) (m : MissionDoc) : Except Unit Drone :=
  match get_mission_center m with
  | none =>
      match availableDrones w with
      | [] => .error ()
      | d :: _ => .ok d
  | some (clat, clng) =>
      match find_nearest_base w clat clng with
      | some nb =>
          match sortByBatteryDesc (w.drones.filter (fun d =>
              d.baseId == some nb.baseId && d.status == "available")) with
          | d :: _ => .ok d
          | [] =>
              match availableDrones w with
              | [] => .error ()
              | d :: _ => .ok d
      | none =>
          match availableDrones w with
          | [] => .error ()
          | d :: _ => .ok d

/-- Result of `perform_battery_handoff`: the Python function returns the
replacement `Drone`, the string `"aborted"`, or `None`. -/
inductive HandoffResult
  | dispatched (d : Drone)
  | abortedMission
  | noReplacement

/-- `CRITICAL_BATTERY_LEVEL = 20`. -/
def CRITICAL_BATTERY_LEVEL : ℝ := 20

/-- `MINIMUM_BATTERY_FOR_MISSION = 30`. -/
def MINIMUM_BATTERY_FOR_MISSION : ℝ := 30

/-- `abort_mission_no_replacement(mission, current_drone)`: mark the
mission aborted, send the current drone home, spawn the return flight and
append the `mission_aborted` log entry. -/
def abort_mission_no_replacement (w : World) (current : Drone) :
    World × HandoffResult :=
  let m := w.mission
  let w1 := saveMission w { m with
    status := "aborted"
    abortReason := some "No replacement drone available (battery critical)" }
  let w2 := saveDrone w1 { current with status := "returning", currentMissionId := none }
  let w3 := { w2 with returnFlights := current.droneId :: w2.returnFlights }
  let w4 := appendLog w3
    { handoffType := "mission_aborted"
      outgoingDroneId := some current.droneId
      incomingDroneId := none
      waypointIndex := m.currentWaypointIndex }
  (w4, .abortedMission)

/-- `perform_battery_handoff(mission, current_drone, current_waypoint_index)`.
Selection: first same-base available drone (battery-descending) with
`battery >= MINIMUM_BATTERY_FOR_MISSION`; else `auto_assign_drone`
(a `ValidationError` there returns `None`), re-picking when it returns the
current drone itself.  A selected replacement below the minimum battery
aborts the mission; otherwise it is dispatched. -/
def perform_battery_handoff (w : World) (current : Drone)
    (current_waypoint_index : Nat) : World × HandoffResult :=
  let m := w.mission
  let origin_base_id := m.originBaseId.orElse (fun _ => current.baseId)
  let same_base : Option Drone :=
    match origin_base_id with
    | some ob => (sameBaseCandidates w ob current.droneId).find?
        (fun d => MINIMUM_BATTERY_FOR_MISSION ≤ d.batteryLevel)
    | none => none
  let replacement : Option Drone :=
    match same_base with
    | some r => some r
    | none =>
        match auto_assign_drone w m with
        | .error _ => none
        | .ok r =>
            if r.droneId == current.droneId then
              (availableExcluding w current.droneId).head?
            else some r
  match replacement with
  | none => (w, .noReplacement)
  | some r =>
      if r.batteryLevel < MINIMUM_BATTERY_FOR_MISSION then
        abort_mission_no_replacement w current
      else
        let handoff_pos : Coordinate := (current.location).getD ⟨0, 0⟩
        let w1 := saveDrone w { r with status := "dispatching" }
        let w2 := saveMission w1 { w1.mission with
          pendingReplacementDroneId := some r.droneId
          handoffLocation := some handoff_pos }
        let w3 := appendLog w2
          { handoffType := "replacement_dispatched"
            outgoingDroneId := some current.droneId
            incomingDroneId := some r.droneId
            waypointIndex := current_waypoint_index }
        let w4 := { w3 with replacementFlights := r.droneId :: w3.replacementFlights }
        (w4, .dispatched r)

/-- `complete_handoff(mission_id, replacement_drone_id)`: swap mission
ownership.  There is no guard on `pending_replacement_drone_id`; the drone
loaded as outgoing is whatever `mission.assigned_drone_id` currently names. -/
def complete_handoff (w : World) (missionId replacementDroneId : String) : World :=
  if w.mission.missionId ≠ missionId then w
  else
    match getDrone w replacementDroneId, w.mission.assignedDroneId.bind (getDrone w) with
    | some replacement, some outgoing =>
        let w1 := appendLog w
          { handoffType := "handoff_complete"
            outgoingDroneId := some outgoing.droneId
            incomingDroneId := some replacement.droneId
            waypointIndex := w.mission.currentWaypointIndex }
        let w2 := saveDrone w1 { outgoing with status := "returning", currentMissionId := none }
        let w3 := { w2 with returnFlights := outgoing.droneId :: w2.returnFlights }
        let w4 := saveDrone w3 { replacement with
          status := "in_flight", currentMissionId := some w.mission.missionId }
        saveMission w4 { w4.mission with
          assignedDroneId := some replacement.droneId
          pendingReplacementDroneId := none
          handoffLocation := none }
    | _, _ => w

/-- The rendezvous distance computed by the executor tick in
`run_mission_simulation`: the code calls
`haversine_distance(current_lat, current_lng, repl_lat, repl_lng)`, whose
signature is `(lng1, lat1, lng2, lat2)` — latitudes land in the longitude
slots and vice versa. -/
def rendezvous_distance (current replacement : Coordinate) : ℝ :=
  haversine_distance current.lat current.lng replacement.lat replacement.lng

/-- The executor invokes `complete_handoff` exactly when
`rendezvous_distance <= 10`. -/
def rendezvous_triggers (current replacement : Coordinate) : Prop :=
  rendezvous_distance current replacement ≤ 10

/-- Outcome of one iteration of `charge_drone_task`. -/
inductive ChargeOutcome
  | completeAvailable
  | interrupted
  | charging
deriving DecidableEq

/-- `CHARGE_RATE = 5.0` (% per second). -/
def CHARGE_RATE : ℝ := 5

/-- One iteration of the `charge_drone_task` loop: the battery-full branch
runs FIRST and writes `status = "available"`; only then is a status other
than `"charging"` treated as pre-emption (exit with no write). -/
def charge_tick (d : Drone) : Drone × ChargeOutcome :=
  if 100 ≤ d.batteryLevel then
    ({ d with status := "available", batteryLevel := 100 }, .completeAvailable)
  else if d.status ≠ "charging" then
    (d, .interrupted)
  else
    ({ d with batteryLevel := min 100 (d.batteryLevel + CHARGE_RATE) }, .charging)

/-! ## Evaluation lemmas for the haversine at exactly representable angles -/

theorem arctan_sqrt_three : Real.arctan (Real.sqrt 3) = Real.pi / 3 := by
  have htan : Real.tan (Real.pi / 3) = Real.sqrt 3 := by
    rw [Real.tan_eq_sin_div_cos, Real.sin_pi_div_three, Real.cos_pi_div_three]
    field_simp
  have h1 : -(Real.pi / 2) < Real.pi / 3 := by
    have := Real.pi_pos; linarith
  have h2 : Real.pi / 3 < Real.pi / 2 := by
    have := Real.pi_pos; linarith
  rw [← htan, Real.arctan_tan h1 h2]

theorem sqrt_three_quarters : Real.sqrt (3 / 4) = Real.sqrt 3 / 2 := by
  have h : (3 : ℝ) / 4 = (Real.sqrt 3 / 2) ^ 2 := by
    rw [div_pow, Real.sq_sqrt (by norm_num : (3:ℝ) ≥ 0)]
    norm_num
  rw [h, Real.sqrt_sq (by positivity)]

theorem sqrt_one_quarter : Real.sqrt (1 / 4) = 1 / 2 := by
  have h : (1 : ℝ) / 4 = (1 / 2 : ℝ) ^ 2 := by norm_num
  rw [h, Real.sqrt_sq (by norm_num)]

/-- On the equator, any longitude pair whose half-angle sine squares to 3/4
is 2π/3 radians of arc apart. -/
theorem haversine_equator_of_sin_sq (lng1 lng2 : ℝ)
    (h : Real.sin (radians (lng2 - lng1) / 2) ^ 2 = 3 / 4) :
    haversine_distance lng1 0 lng2 0 = earthRadius * (2 * Real.pi / 3) := by
  unfold haversine_distance
  have hrad0 : radians (0 - 0) = 0 := by unfold radians; ring
  have hradz : radians 0 = 0 := by unfold radians; ring
  simp only [hrad0, hradz]
  rw [show (0:ℝ)/2 = 0 by norm_num, Real.sin_zero, Real.cos_zero]
  rw [h]
  have ha : (0:ℝ) ^ 2 + 1 * 1 * (3/4) = 3/4 := by norm_num
  rw [ha, show (1:ℝ) - 3/4 = 1/4 by norm_num, sqrt_three_quarters, sqrt_one_quarter]
  have hx : (0:ℝ) < 1/2 := by norm_num
  rw [show atan2 (Real.sqrt 3 / 2) (1/2) = Real.arctan ((Real.sqrt 3 / 2) / (1/2)) by
    unfold atan2; rw [if_pos hx]]
  rw [show (Real.sqrt 3 / 2) / (1/2 : ℝ) = Real.sqrt 3 by field_simp]
  rw [arctan_sqrt_three]
  ring

theorem haversine_0_120 :
    haversine_distance 0 0 120 0 = earthRadius * (2 * Real.pi / 3) := by
  apply haversine_equator_of_sin_sq
  rw [show radians (120 - 0) / 2 = Real.pi / 3 by unfold radians; ring]
  rw [Real.sin_pi_div_three, div_pow, Real.sq_sqrt (by norm_num : (3:ℝ) ≥ 0)]
  norm_num

theorem haversine_60_180 :
    haversine_distance 60 0 180 0 = earthRadius * (2 * Real.pi / 3) := by
  apply haversine_equator_of_sin_sq
  rw [show radians (180 - 60) / 2 = Real.pi / 3 by unfold radians; ring]
  rw [Real.sin_pi_div_three, div_pow, Real.sq_sqrt (by norm_num : (3:ℝ) ≥ 0)]
  norm_num

theorem haversine_120_0 :
    haversine_distance 120 0 0 0 = earthRadius * (2 * Real.pi / 3) := by
  apply haversine_equator_of_sin_sq
  rw [show radians (0 - 120) / 2 = -(Real.pi / 3) by unfold radians; ring]
  rw [Real.sin_neg, neg_sq]
  rw [Real.sin_pi_div_three, div_pow, Real.sq_sqrt (by norm_num : (3:ℝ) ≥ 0)]
  norm_num

/-- The haversine distance from any point to itself is zero. -/
theorem haversine_self (lng lat : ℝ) : haversine_distance lng lat lng lat = 0 := by
  unfold haversine_distance
  rw [sub_self lat, sub_self lng, show radians 0 = 0 by unfold radians; ring]
  dsimp only
  rw [show (0:ℝ) / 2 = 0 by norm_num, Real.sin_zero]
  rw [show (0:ℝ)^2 + Real.cos (radians lat) * Real.cos (radians lat) * 0^2 = 0 by ring]
  rw [Real.sqrt_zero, show (1:ℝ) - 0 = 1 by norm_num, Real.sqrt_one]
  rw [show atan2 0 1 = Real.arctan (0 / 1) by
    unfold atan2; rw [if_pos (by norm_num : (0:ℝ) < 1)]]
  rw [show (0:ℝ) / 1 = 0 by norm_num, Real.arctan_zero]
  ring

theorem haversine_60_neg180 :
    haversine_distance 60 0 (-180) 0 = earthRadius * (2 * Real.pi / 3) := by
  apply haversine_equator_of_sin_sq
  rw [show radians (-180 - 60) / 2 = -(2 * Real.pi / 3) by unfold radians; ring]
  rw [Real.sin_neg, neg_sq]
  rw [show 2 * Real.pi / 3 = Real.pi - Real.pi / 3 by ring, Real.sin_pi_sub]
  rw [Real.sin_pi_div_three, div_pow, Real.sq_sqrt (by norm_num : (3:ℝ) ≥ 0)]
  norm_num

/-! ## Claim C10 -/

/-- Claim C10: calling `DroneSimulator.tick` when `current_waypoint_idx` is
at or past the end of the waypoint list returns a result with
`complete = true` and leaves the whole simulator state (position, altitude,
heading, battery, index, distances) unchanged; in particular no battery is
drained after the path is exhausted. -/
theorem tick_past_end_is_frame (s : SimState) (delta_seconds : ℝ)
    (h : s.waypoints.length ≤ s.current_waypoint_idx) :
    tick s delta_seconds = (s, create_result s true) ∧
      (tick s delta_seconds).2.complete = true := by
  have ht : tick s delta_seconds = (s, create_result s true) := by
    unfold tick
    rw [if_pos h]
  exact ⟨ht, by rw [ht]; rfl⟩

/-- Witness for C10: a concrete simulator with an exhausted waypoint list. -/
theorem tick_past_end_is_frame_witness :
    tick (mkSimulator [] 0 0 10 100) 1 =
      (mkSimulator [] 0 0 10 100, create_result (mkSimulator [] 0 0 10 100) true) :=
  (tick_past_end_is_frame (mkSimulator [] 0 0 10 100) 1 (by simp [mkSimulator])).1

/-! ## Claim C6 -/

/-- Claim C6 counterexample: a drone externally moved to `maintenance`
whose battery reads 100 is written back to `available` by the very next
charging iteration — the battery-full branch runs before the
status-changed guard, so the worker does override an externally-set
status. -/
theorem charge_tick_overrides_maintenance :
    (charge_tick ⟨"DRN-9", "maintenance", 100, none, none, none⟩).1.status
        = "available" ∧
      (⟨"DRN-9", "maintenance", 100, none, none, none⟩ : Drone).status
        = "maintenance" := by
  constructor
  · unfold charge_tick
    rw [if_pos (by norm_num : (100:ℝ) ≤ 100)]
  · rfl

/-- Claim C6 amended: when the reloaded drone's battery is below 100 and
its status is no longer `charging`, the charging iteration exits without
writing to the drone; the protection does not extend to drones whose
battery reads 100 or to the post-timeout fallback, both of which write
`available` unconditionally. -/
theorem charge_tick_preempted_no_write (d : Drone)
    (hbat : d.batteryLevel < 100) (hst : d.status ≠ "charging") :
    charge_tick d = (d, ChargeOutcome.interrupted) := by
  unfold charge_tick
  rw [if_neg (by linarith : ¬ (100:ℝ) ≤ d.batteryLevel), if_pos hst]

/-- Witness for the amended C6 at a concrete pre-empted drone. -/
theorem charge_tick_preempted_no_write_witness :
    charge_tick ⟨"DRN-9", "maintenance", 40, none, none, none⟩ =
      (⟨"DRN-9", "maintenance", 40, none, none, none⟩, ChargeOutcome.interrupted) :=
  charge_tick_preempted_no_write _ (by norm_num) (by decide)

/-! ## Claim C2 -/

/-- The positions `(lng 0, lat 90)` and `(lng 180, lat 90)` are the same
physical point (the north pole): their haversine distance is zero. -/
theorem haversine_north_pole : haversine_distance 0 90 180 90 = 0 := by
  unfold haversine_distance
  rw [show radians (90 - 90 : ℝ) = 0 by unfold radians; ring]
  rw [show radians (90 : ℝ) = Real.pi / 2 by unfold radians; ring]
  dsimp only
  rw [show (0:ℝ) / 2 = 0 by norm_num, Real.sin_zero, Real.cos_pi_div_two]
  rw [show (0:ℝ)^2 + 0 * 0 * Real.sin (radians (180 - 0) / 2) ^ 2 = 0 by ring]
  rw [Real.sqrt_zero, show (1:ℝ) - 0 = 1 by norm_num, Real.sqrt_one]
  rw [show atan2 0 1 = Real.arctan (0 / 1) by
    unfold atan2; rw [if_pos (by norm_num : (0:ℝ) < 1)]]
  rw [show (0:ℝ) / 1 = 0 by norm_num, Real.arctan_zero]
  ring

/-- The value the rendezvous check actually computes for those two
positions: with latitudes in the longitude slots the formula evaluates to
half the Earth's circumference. -/
theorem haversine_swapped_pole :
    haversine_distance 90 0 90 180 = earthRadius * Real.pi := by
  unfold haversine_distance
  rw [show radians (180 - 0 : ℝ) = Real.pi by unfold radians; ring]
  rw [show radians (90 - 90 : ℝ) = 0 by unfold radians; ring]
  rw [show radians (0 : ℝ) = 0 by unfold radians; ring]
  rw [show radians (180 : ℝ) = Real.pi by unfold radians; ring]
  dsimp only
  rw [show (0:ℝ) / 2 = 0 by norm_num, Real.sin_zero, Real.sin_pi_div_two]
  rw [show (1:ℝ)^2 + Real.cos 0 * Real.cos Real.pi * 0^2 = 1 by
    rw [Real.cos_zero, Real.cos_pi]; ring]
  rw [Real.sqrt_one, show (1:ℝ) - 1 = 0 by norm_num, Real.sqrt_zero]
  rw [show atan2 1 0 = Real.pi / 2 by unfold atan2; norm_num]
  ring

/-- Claim C2 is wrong about the code (and the code wrong about its intent):
the executor's rendezvous check passes latitudes into the longitude
parameters of `path_generator.haversine_distance` (whose first, argument-
order-compatible definition is shadowed by a second one).  At the concrete
positions `current = (lng 0, lat 90)` and `replacement = (lng 180, lat 90)`
the true haversine separation is `0 ≤ 10 m`, yet the check computes
`earthRadius * π` and does not invoke `complete_handoff`. -/
theorem rendezvous_check_misses_colocated_drones :
    haversine_distance 0 90 180 90 = 0 ∧
      rendezvous_distance ⟨0, 90⟩ ⟨180, 90⟩ = earthRadius * Real.pi ∧
      ¬ rendezvous_triggers ⟨0, 90⟩ ⟨180, 90⟩ := by
  refine ⟨haversine_north_pole, ?_, ?_⟩
  · show haversine_distance 90 0 90 180 = earthRadius * Real.pi
    exact haversine_swapped_pole
  · show ¬ haversine_distance 90 0 90 180 ≤ 10
    rw [haversine_swapped_pole]
    push_neg
    rw [show earthRadius = (6371000 : ℝ) from rfl]
    nlinarith [Real.pi_gt_three]

/-! ## Claim C7 -/

/-- A two-waypoint path whose single hop (0°E to 120°E on the equator) is
entirely travel: the `fly` prefix has one waypoint. -/
def resumeWps : List Waypoint :=
  [⟨0, 0, 50, "fly", 0⟩, ⟨0, 120, 50, "photo", 0⟩]

/-- Claim C7 counterexample: for a persisted mission with `progress = 0`
and a non-trivial travel prefix, the reconstructed `distance_traveled` is
`0`, not `travel_distance + (progress/100) * survey_distance` — the
resume branch only runs when `progress > 0`. -/
theorem resume_zero_progress_counterexample :
    (mkSimulator resumeWps 0 0 10 100).distance_traveled ≠
      (mkSimulator resumeWps 0 0 10 100).travel_distance +
        (0 / 100) * (mkSimulator resumeWps 0 0 10 100).survey_distance := by
  have h1 : (mkSimulator resumeWps 0 0 10 100).distance_traveled = 0 := by
    unfold mkSimulator
    dsimp only
    rw [if_neg (lt_irrefl (0 : ℝ))]
  have h2 : (mkSimulator resumeWps 0 0 10 100).travel_distance =
      earthRadius * (2 * Real.pi / 3) := by
    unfold mkSimulator
    dsimp only
    rw [show count_travel_waypoints resumeWps = 1 from rfl]
    unfold calculate_travel_distance
    rw [if_neg (by simp [resumeWps])]
    rw [show min 1 (resumeWps.length - 1) = 1 from rfl]
    rw [show List.range 1 = [0] from rfl]
    simp only [List.map_cons, List.map_nil, List.sum_cons, List.sum_nil, add_zero]
    rw [show waypointHop resumeWps 0 = haversine_distance 0 0 120 0 from rfl]
    exact haversine_0_120
  rw [h1, h2]
  intro hcontra
  have hpi := Real.pi_pos
  rw [show earthRadius = (6371000 : ℝ) from rfl] at hcontra
  nlinarith [hcontra]

/-- Claim C7 amended: the reconstruction
`survey_distance_traveled = (progress/100) * survey_distance` and
`distance_traveled = travel_distance + survey_distance_traveled` holds for
persisted progress strictly greater than zero; at `progress = 0` (or
`None`) both counters are initialized to zero instead. -/
theorem resume_reconstruction_pos_progress (waypoints : List Waypoint)
    (idx : Nat) (progress speed battery : ℝ) (h : 0 < progress) :
    (mkSimulator waypoints idx progress speed battery).survey_distance_traveled
        = (progress / 100) *
          (mkSimulator waypoints idx progress speed battery).survey_distance ∧
      (mkSimulator waypoints idx progress speed battery).distance_traveled
        = (mkSimulator waypoints idx progress speed battery).travel_distance
          + (mkSimulator waypoints idx progress speed battery).survey_distance_traveled := by
  unfold mkSimulator
  dsimp only
  simp only [if_pos h]
  exact ⟨trivial, trivial⟩

/-- Witness for the amended C7 at progress 50 on the concrete path. -/
theorem resume_reconstruction_pos_progress_witness :
    (mkSimulator resumeWps 0 50 10 100).survey_distance_traveled
        = (50 / 100) * (mkSimulator resumeWps 0 50 10 100).survey_distance ∧
      (mkSimulator resumeWps 0 50 10 100).distance_traveled
        = (mkSimulator resumeWps 0 50 10 100).travel_distance
          + (mkSimulator resumeWps 0 50 10 100).survey_distance_traveled :=
  resume_reconstruction_pos_progress resumeWps 0 50 10 100 (by norm_num)

/-! ## Claim C5 -/

/-- A planner-shaped path: one `fly` travel waypoint, one `photo` survey
waypoint, then the appended return suffix — which the planner emits with
`action="fly"` (mission_service start_mission passes `action="fly"`). -/
def phaseWps : List Waypoint :=
  [⟨0, 0, 50, "fly", 0⟩, ⟨0, 120, 50, "photo", 0⟩,
   ⟨0, 60, 50, "fly", 0⟩, ⟨0, 0, 10, "fly", 0⟩]

/-- Claim C5 fails on the code: `_find_return_waypoint_start` looks for
`action` in `("return", "land")`, values the `Waypoint` model cannot even
hold, so for a path whose trailing suffix is the planner's `fly` waypoints
the return start is the list length and the phase at `currentIndex = 2`
(the first waypoint of the trailing fly-suffix) is reported as
`"surveying"`, never `"returning"`. -/
theorem returning_phase_not_reported_on_fly_suffix :
    find_return_waypoint_start phaseWps = 4 ∧
      count_travel_waypoints phaseWps = 1 ∧
      ¬ is_returning (mkSimulator phaseWps 2 0 10 100) ∧
      (create_result (mkSimulator phaseWps 2 0 10 100) false).mission_phase
        = "surveying" := by
  have hret : (mkSimulator phaseWps 2 0 10 100).return_waypoint_start = 4 := rfl
  have htrav : (mkSimulator phaseWps 2 0 10 100).travel_waypoint_count = 1 := rfl
  have hidx : (mkSimulator phaseWps 2 0 10 100).current_waypoint_idx = 2 := rfl
  have hnotret : ¬ is_returning (mkSimulator phaseWps 2 0 10 100) := by
    unfold is_returning
    rw [hret, hidx]
    omega
  have hnottrav : ¬ is_traveling (mkSimulator phaseWps 2 0 10 100) := by
    unfold is_traveling
    rw [htrav, hidx]
    omega
  have hsurv : is_surveying (mkSimulator phaseWps 2 0 10 100) := by
    unfold is_surveying
    rw [htrav, hidx, hret]
    omega
  refine ⟨rfl, rfl, hnotret, ?_⟩
  unfold create_result
  dsimp only
  rw [if_neg hnottrav, if_pos hsurv]

/-! ## Claim C4 -/

/-- A simulator state one third of the way through a 3 m survey segment. -/
def sampleProgressState : SimState :=
  { waypoints := []
    current_waypoint_idx := 0
    travel_waypoint_count := 0
    return_waypoint_start := 0
    position := (0, 0)
    altitude := 50
    speed := 10
    heading := 0
    battery := 100
    total_distance := 3
    travel_distance := 0
    return_distance := 0
    survey_distance := 3
    distance_traveled := 1
    survey_distance_traveled := 1 }

/-- A planner-shaped three-waypoint path: the `fly` travel prefix, one
`photo` survey waypoint at 120°E on the equator, and the trailing `fly`
return waypoint back at 0°E (the suffix `start_mission` appends with
`action="fly"`). -/
def returnSuffixWps : List Waypoint :=
  [⟨0, 0, 50, "fly", 0⟩, ⟨0, 120, 50, "photo", 0⟩, ⟨0, 0, 50, "fly", 0⟩]

/-- Claim C4 counterexample: the return-suffix distance is NOT excluded.
On `returnSuffixWps` the return suffix (per the spec's trailing-fly rule)
starts at index 2, but `_find_return_waypoint_start` (searching for
`'return'/'land'`) returns the length, so `return_distance = 0` and the
entire 120°-equator return leg (`earthRadius * 2π/3` meters) sits inside
`survey_distance` — the denominator.  Flying toward the trailing return
waypoint still counts as surveying, so a tick there accrues the return leg
into `survey_distance_traveled` — the numerator (10 m at speed 10 for one
second, starting from 0).  Moreover the reported value is rounded to two
decimals, so at ratio 1/3 it is `33.33`, not the clamped quotient `100/3`. -/
theorem progress_return_leg_and_rounding_counterexample :
    count_travel_waypoints returnSuffixWps = 1 ∧
      find_return_waypoint_start returnSuffixWps = 3 ∧
      (mkSimulator returnSuffixWps 1 0 10 100).return_distance = 0 ∧
      (mkSimulator returnSuffixWps 1 0 10 100).survey_distance
        = earthRadius * (2 * Real.pi / 3) ∧
      is_surveying ((tick (mkSimulator returnSuffixWps 1 0 10 100) 1).1) ∧
      (tick ((tick (mkSimulator returnSuffixWps 1 0 10 100) 1).1) 1).1.survey_distance_traveled
        = 10 ∧
      (create_result sampleProgressState false).progress ≠
        max 0 (min 100 (100 * sampleProgressState.survey_distance_traveled /
          sampleProgressState.survey_distance)) := by
  have hret0 : calculate_return_distance returnSuffixWps 3 = 0 := by
    unfold calculate_return_distance
    rw [if_pos (by norm_num [returnSuffixWps])]
  have hKnotle : ¬ haversine_distance 120 0 0 0 ≤ 10 * 1 := by
    rw [haversine_120_0, show earthRadius = (6371000 : ℝ) from rfl]
    push_neg
    nlinarith [Real.pi_gt_three]
  have hKnotle' : ¬ haversine_distance 120 0 0 0 ≤ 10 := by
    rw [haversine_120_0, show earthRadius = (6371000 : ℝ) from rfl]
    push_neg
    nlinarith [Real.pi_gt_three]
  refine ⟨rfl, rfl, ?_, ?_, ?_, ?_, ?_⟩
  · unfold mkSimulator
    dsimp only
    rw [show find_return_waypoint_start returnSuffixWps = 3 from rfl]
    exact hret0
  · have htot : calculate_total_distance returnSuffixWps
        = haversine_distance 0 0 120 0 + haversine_distance 120 0 0 0 := by
      unfold calculate_total_distance
      rw [if_neg (by norm_num [returnSuffixWps])]
      rw [show returnSuffixWps.length - 1 = 2 from rfl, show List.range 2 = [0, 1] from rfl]
      simp only [List.map_cons, List.map_nil, List.sum_cons, List.sum_nil, add_zero]
      rw [show waypointHop returnSuffixWps 0 = haversine_distance 0 0 120 0 from rfl]
      rw [show waypointHop returnSuffixWps 1 = haversine_distance 120 0 0 0 from rfl]
    have htrav : calculate_travel_distance returnSuffixWps 1
        = haversine_distance 0 0 120 0 := by
      unfold calculate_travel_distance
      rw [if_neg (by simp [returnSuffixWps])]
      rw [show min 1 (returnSuffixWps.length - 1) = 1 from rfl,
        show List.range 1 = [0] from rfl]
      simp only [List.map_cons, List.map_nil, List.sum_cons, List.sum_nil, add_zero]
      rw [show waypointHop returnSuffixWps 0 = haversine_distance 0 0 120 0 from rfl]
    unfold mkSimulator
    dsimp only
    rw [show count_travel_waypoints returnSuffixWps = 1 from rfl]
    rw [show find_return_waypoint_start returnSuffixWps = 3 from rfl]
    rw [htot, htrav, hret0, haversine_0_120, haversine_120_0]
    ring
  · norm_num [tick, mkSimulator, returnSuffixWps, is_surveying, is_traveling,
      count_travel_waypoints, find_return_waypoint_start, haversine_self,
      List.getD_cons_zero, List.getD_cons_succ]
    decide
  · norm_num [tick, mkSimulator, returnSuffixWps, is_surveying, is_traveling,
      count_travel_waypoints, find_return_waypoint_start, haversine_self,
      hKnotle, hKnotle', List.getD_cons_zero, List.getD_cons_succ]
    decide
  · have hval : (create_result sampleProgressState false).progress = 3333 / 100 := by
      unfold create_result sampleProgressState
      dsimp only
      rw [if_pos (by norm_num : (0:ℝ) < 3)]
      rw [show min (100 : ℝ) ((1:ℝ)/3 * 100) = 10000/300 by
        rw [min_eq_right (by norm_num)]; norm_num]
      unfold round2
      rw [show (10000 : ℝ)/300 * 100 = 10000/3 by norm_num]
      rw [round_eq]
      rw [show (10000 : ℝ)/3 + 1/2 = 20003/6 by norm_num]
      rw [show ⌊(20003 : ℝ)/6⌋ = 3333 by
        apply Int.floor_eq_iff.mpr
        constructor
        · push_cast; norm_num
        · push_cast; norm_num]
      norm_num
    rw [hval]
    unfold sampleProgressState
    dsimp only
    rw [show (100 : ℝ) * 1 / 3 = 100/3 by norm_num]
    rw [min_eq_right (by norm_num), max_eq_right (by norm_num)]
    norm_num

/-- Claim C4 amended: for states with a positive survey distance and a
non-negative survey-distance counter, the reported progress equals
`100 * surveyDistanceTraveled / surveyDistance` clamped to `[0, 100]` and
then rounded to two decimals — but `surveyDistance` excludes only the
travel prefix, not the return suffix.  The denominator is
`totalDistance - travelPrefixDistance - returnDistance` with
`returnDistance` measured from the first `'return'`/`'land'`-action
waypoint; on any path free of those actions (all model-valid paths, and
every planner path, whose return suffix uses `'fly'`) the return start is
the list length, `returnDistance = 0`, the trailing return leg stays in
the denominator, and every index from the end of the travel prefix to the
end of the path — the return suffix included — counts as surveying, so
the return leg also accrues into the numerator. -/
theorem reported_progress_formula (s : SimState) (c : Bool)
    (wps : List Waypoint) (i : Nat) (progress speed battery : ℝ)
    (hsd : 0 < s.survey_distance) (hsdt : 0 ≤ s.survey_distance_traveled)
    (hval : ∀ wp ∈ wps, wp.action ≠ "return" ∧ wp.action ≠ "land") :
    (create_result s c).progress
        = round2 (max 0 (min 100 (100 * s.survey_distance_traveled / s.survey_distance)))
      ∧ (mkSimulator wps i progress speed battery).survey_distance
          = calculate_total_distance wps
            - calculate_travel_distance wps (count_travel_waypoints wps)
            - calculate_return_distance wps (find_return_waypoint_start wps)
      ∧ find_return_waypoint_start wps = wps.length
      ∧ calculate_return_distance wps (find_return_waypoint_start wps) = 0
      ∧ (count_travel_waypoints wps ≤ i → i < wps.length →
          is_surveying (mkSimulator wps i progress speed battery)) := by
  have hfind : find_return_waypoint_start wps = wps.length := by
    unfold find_return_waypoint_start
    apply List.findIdx_eq_length.mpr
    intro wp hwp
    obtain ⟨hr, hl⟩ := hval wp hwp
    simp [hr, hl]
  have hret : calculate_return_distance wps (find_return_waypoint_start wps) = 0 := by
    rw [hfind]
    unfold calculate_return_distance
    rw [if_pos (le_refl wps.length)]
  refine ⟨?_, ?_, hfind, hret, ?_⟩
  · unfold create_result
    dsimp only
    rw [if_pos hsd]
    have hq : 0 ≤ s.survey_distance_traveled / s.survey_distance * 100 := by positivity
    rw [max_eq_right (le_min (by norm_num) (by
      rw [show (100 : ℝ) * s.survey_distance_traveled / s.survey_distance
          = s.survey_distance_traveled / s.survey_distance * 100 by ring]
      exact hq))]
    rw [show (100 : ℝ) * s.survey_distance_traveled / s.survey_distance
        = s.survey_distance_traveled / s.survey_distance * 100 by ring]
  · unfold mkSimulator
    dsimp only
  · intro h1 h2
    unfold is_surveying mkSimulator
    dsimp only
    rw [hfind]
    exact ⟨h1, h2⟩

/-- Witness for the amended C4: the one-third state for the progress
formula and the three-waypoint return-suffix path for the denominator and
phase facts (index 2 is the trailing return waypoint and counts as
surveying). -/
theorem reported_progress_formula_witness :
    (create_result sampleProgressState false).progress
        = round2 (max 0 (min 100 (100 * sampleProgressState.survey_distance_traveled /
            sampleProgressState.survey_distance)))
      ∧ (mkSimulator returnSuffixWps 2 0 10 100).survey_distance
          = calculate_total_distance returnSuffixWps
            - calculate_travel_distance returnSuffixWps (count_travel_waypoints returnSuffixWps)
            - calculate_return_distance returnSuffixWps (find_return_waypoint_start returnSuffixWps)
      ∧ find_return_waypoint_start returnSuffixWps = returnSuffixWps.length
      ∧ calculate_return_distance returnSuffixWps (find_return_waypoint_start returnSuffixWps) = 0
      ∧ (count_travel_waypoints returnSuffixWps ≤ 2 → 2 < returnSuffixWps.length →
          is_surveying (mkSimulator returnSuffixWps 2 0 10 100)) :=
  reported_progress_formula sampleProgressState false returnSuffixWps 2 0 10 100
    (by norm_num [sampleProgressState]) (by norm_num [sampleProgressState])
    (by decide)

/-! ## Claim C1 -/

/-- C1 counterexample mission: in progress from base B1, no coverage area. -/
def c1Mission : MissionDoc :=
  { missionId := "M1", status := "in_progress", assignedDroneId := some "D1",
    originBaseId := some "B1", pendingReplacementDroneId := none,
    handoffLocation := none, currentWaypointIndex := 5, abortReason := none,
    coverageArea := none }

/-- C1 counterexample outgoing drone, at 15% battery. -/
def c1Current : Drone :=
  { droneId := "D1", status := "in_flight", batteryLevel := 15,
    location := some ⟨72, 19⟩, baseId := some "B1", currentMissionId := some "M1" }

/-- C1 counterexample world: the low-battery drone is the only drone. -/
def c1World : World :=
  { mission := c1Mission, drones := [c1Current], bases := [], logs := [],
    returnFlights := [], replacementFlights := [] }

/-- Claim C1 fails on the code: with the critical check fired (battery
15% ≤ 20%) and no replacement candidate at all (hence none with battery
≥ 30%), `perform_battery_handoff` returns `None` and leaves the world
untouched — the mission is not aborted, no `mission_aborted` log is
appended, and the loop continues on the low-battery drone. -/
theorem no_candidate_silent_continuation :
    c1Current.batteryLevel ≤ CRITICAL_BATTERY_LEVEL ∧
      perform_battery_handoff c1World c1Current 5
        = (c1World, HandoffResult.noReplacement) ∧
      c1World.mission.status = "in_progress" ∧
      c1World.logs = [] := by
  refine ⟨?_, rfl, rfl, rfl⟩
  show (15 : ℝ) ≤ CRITICAL_BATTERY_LEVEL
  unfold CRITICAL_BATTERY_LEVEL
  norm_num

/-- Claim C1 amended: when the critical-battery check fires and the
same-base pool has no candidate with battery ≥ 30%, the outcome splits:
if `auto_assign_drone` raises (no available drone at all) the coordinator
returns `None` and the mission silently continues on the low-battery
drone; only if auto-assignment produces a distinct candidate whose battery
is below 30% does it invoke `abort_mission_no_replacement`, marking the
mission `aborted` and appending a `mission_aborted` handoff log. -/
theorem critical_battery_outcomes (w : World) (c : Drone) (i : Nat) (ob : String)
    (h1 : w.mission.originBaseId = some ob)
    (h2 : (sameBaseCandidates w ob c.droneId).find?
        (fun d => MINIMUM_BATTERY_FOR_MISSION ≤ d.batteryLevel) = none) :
    (auto_assign_drone w w.mission = .error () →
        perform_battery_handoff w c i = (w, HandoffResult.noReplacement)) ∧
      (∀ r, auto_assign_drone w w.mission = .ok r → r.droneId ≠ c.droneId →
        r.batteryLevel < MINIMUM_BATTERY_FOR_MISSION →
        perform_battery_handoff w c i = abort_mission_no_replacement w c ∧
          (perform_battery_handoff w c i).1.mission.status = "aborted" ∧
          (perform_battery_handoff w c i).1.logs
            = w.logs ++ [⟨"mission_aborted", some c.droneId, none,
                w.mission.currentWaypointIndex⟩]) := by
  have hbase : (w.mission.originBaseId.orElse fun _ => c.baseId) = some ob := by
    rw [h1]; rfl
  constructor
  · intro herr
    unfold perform_battery_handoff
    dsimp only
    rw [hbase]
    dsimp only
    rw [h2]
    dsimp only
    rw [herr]
  · intro r hok hne hlt
    have hmain : perform_battery_handoff w c i = abort_mission_no_replacement w c := by
      unfold perform_battery_handoff
      dsimp only
      rw [hbase]
      dsimp only
      rw [h2]
      dsimp only
      rw [hok]
      dsimp only
      rw [if_neg (by simpa using hne)]
      dsimp only
      rw [if_pos hlt]
    refine ⟨hmain, ?_, ?_⟩
    · rw [hmain]; rfl
    · rw [hmain]; rfl

/-- C1 amended-claim witness drone: the only available drone has 25%
battery, below the 30% minimum. -/
def c1Weak : Drone :=
  { droneId := "D2", status := "available", batteryLevel := 25,
    location := some ⟨70, 18⟩, baseId := some "B2", currentMissionId := none }

/-- C1 amended-claim witness world. -/
def c1AbortWorld : World :=
  { mission := c1Mission, drones := [c1Current, c1Weak], bases := [], logs := [],
    returnFlights := [], replacementFlights := [] }

/-- Witness for the amended C1: a weak-battery auto-assigned candidate
does produce the abort, the aborted status, and the log entry. -/
theorem critical_battery_outcomes_witness :
    perform_battery_handoff c1AbortWorld c1Current 5
        = abort_mission_no_replacement c1AbortWorld c1Current ∧
      (perform_battery_handoff c1AbortWorld c1Current 5).1.mission.status = "aborted" ∧
      (perform_battery_handoff c1AbortWorld c1Current 5).1.logs
        = c1AbortWorld.logs ++ [⟨"mission_aborted", some c1Current.droneId, none,
            c1AbortWorld.mission.currentWaypointIndex⟩] :=
  (critical_battery_outcomes c1AbortWorld c1Current 5 "B1" rfl rfl).2 c1Weak rfl
    (by decide) (by norm_num [c1Weak, MINIMUM_BATTERY_FOR_MISSION])

/-! ## Claim C3 -/

/-- Replacing each list element that `f` fixes leaves the list unchanged. -/
theorem map_eq_self_of_mem {α : Type} {l : List α} {f : α → α}
    (h : ∀ a ∈ l, f a = a) : l.map f = l := by
  induction l with
  | nil => rfl
  | cons a t ih =>
      rw [List.map_cons, h a (List.mem_cons_self a t),
        ih (fun b hb => h b (List.mem_cons_of_mem a hb))]

/-- C3 pre-handoff mission: drone D1 flying, replacement D2 pending. -/
def c3Mission : MissionDoc :=
  { missionId := "M3", status := "in_progress", assignedDroneId := some "D1",
    originBaseId := some "B1", pendingReplacementDroneId := some "D2",
    handoffLocation := some ⟨72, 19⟩, currentWaypointIndex := 7, abortReason := none,
    coverageArea := none }

/-- C3 outgoing drone. -/
def c3Outgoing : Drone :=
  { droneId := "D1", status := "in_flight", batteryLevel := 18,
    location := some ⟨72, 19⟩, baseId := some "B1", currentMissionId := some "M3" }

/-- C3 incoming drone. -/
def c3Incoming : Drone :=
  { droneId := "D2", status := "dispatching", batteryLevel := 95,
    location := some ⟨72, 19⟩, baseId := some "B1", currentMissionId := none }

/-- C3 pre-handoff world. -/
def c3World : World :=
  { mission := c3Mission, drones := [c3Outgoing, c3Incoming], bases := [],
    logs := [], returnFlights := [], replacementFlights := [] }

/-- Claim C3 fails on the code: `complete_handoff` has no guard on
`pending_replacement_drone_id`, so invoking it a second time after the
swap is not a no-op — it appends a second `handoff_complete` log entry and
spawns a return flight for the drone that now owns the mission. -/
theorem complete_handoff_not_idempotent :
    (complete_handoff (complete_handoff c3World "M3" "D2") "M3" "D2").logs.length = 2 ∧
      (complete_handoff c3World "M3" "D2").logs.length = 1 ∧
      (complete_handoff (complete_handoff c3World "M3" "D2") "M3" "D2").returnFlights
        = ["D2", "D1"] :=
  ⟨rfl, rfl, rfl⟩

/-- Claim C3 amended: after a completed handoff (mission assigned to the
replacement, pending cleared, replacement in flight and owning the
mission), a second `complete_handoff` leaves the mission document and
every drone's final state unchanged — but it is not a no-op: it appends a
second `handoff_complete` log entry (with the replacement listed as both
outgoing and incoming) and spawns a redundant return flight for the drone
currently flying the mission. -/
theorem complete_handoff_second_call (w : World) (mid rid : String) (r : Drone)
    (h0 : w.mission.missionId = mid)
    (h1 : w.mission.assignedDroneId = some rid)
    (h2 : getDrone w rid = some r)
    (h3 : r.status = "in_flight")
    (h4 : r.currentMissionId = some mid)
    (h5 : w.mission.pendingReplacementDroneId = none)
    (h6 : w.mission.handoffLocation = none)
    (h7 : ∀ e ∈ w.drones, e.droneId = rid → e = r) :
    complete_handoff w mid rid =
      { w with
        logs := w.logs ++ [⟨"handoff_complete", some rid, some rid,
          w.mission.currentWaypointIndex⟩]
        returnFlights := rid :: w.returnFlights } := by
  have hrid : r.droneId = rid := by
    have hp := List.find?_some h2
    simpa using hp
  unfold complete_handoff
  rw [if_neg (by rw [h0]; exact fun hne => hne rfl)]
  rw [h1]
  have hbind : (some rid).bind (getDrone w) = some r := by
    rw [Option.some_bind, h2]
  rw [hbind, h2]
  dsimp only [saveDrone, saveMission, appendLog]
  have hdrones : (w.drones.map (fun e =>
      if e.droneId == ({ r with status := "returning", currentMissionId := none } : Drone).droneId
      then { r with status := "returning", currentMissionId := none } else e)).map (fun e =>
      if e.droneId == ({ r with status := "in_flight", currentMissionId := some w.mission.missionId } : Drone).droneId
      then { r with status := "in_flight", currentMissionId := some w.mission.missionId }
      else e) = w.drones := by
    rw [List.map_map]
    apply map_eq_self_of_mem
    intro e he
    rw [Function.comp_apply]
    dsimp only
    by_cases hid : e.droneId = r.droneId
    · have her : e = r := h7 e he (hid.trans hrid)
      rw [her]
      rw [if_pos (beq_self_eq_true r.droneId)]
      dsimp only
      rw [if_pos (beq_self_eq_true r.droneId)]
      obtain ⟨da, db, dc, dd, dee, df⟩ := r
      simp only at h3 h4 ⊢
      rw [h3, h4, h0]
    · have hn : ¬ ((e.droneId == r.droneId) = true) := by
        simp [hid]
      rw [if_neg hn, if_neg hn]
  rw [hdrones]
  obtain ⟨m, ds, bs, ls, rfs, pfs⟩ := w
  obtain ⟨mmid, mst, mad, mob, mprd, mhl, mcwi, mar, mca⟩ := m
  dsimp only at h0 h1 h5 h6 ⊢
  subst h0 h1 h5 h6
  rw [hrid]

/-- C3 witness mission: ownership already swapped to D2, pending cleared. -/
def c3AfterMission : MissionDoc :=
  { missionId := "M3", status := "in_progress", assignedDroneId := some "D2",
    originBaseId := some "B1", pendingReplacementDroneId := none,
    handoffLocation := none, currentWaypointIndex := 7, abortReason := none,
    coverageArea := none }

/-- C3 witness drone: the replacement, now flying the mission. -/
def c3AfterDrone : Drone :=
  { droneId := "D2", status := "in_flight", batteryLevel := 95,
    location := some ⟨72, 19⟩, baseId := some "B1", currentMissionId := some "M3" }

/-- C3 witness world: the state right after a successful handoff to D2. -/
def c3AfterWorld : World :=
  { mission := c3AfterMission, drones := [c3AfterDrone], bases := [], logs := [],
    returnFlights := ["D1"], replacementFlights := [] }

/-- Witness for the amended C3 on the concrete post-handoff world. -/
theorem complete_handoff_second_call_witness :
    complete_handoff c3AfterWorld "M3" "D2" =
      { c3AfterWorld with
        logs := c3AfterWorld.logs ++ [⟨"handoff_complete", some "D2", some "D2",
          c3AfterWorld.mission.currentWaypointIndex⟩]
        returnFlights := "D2" :: c3AfterWorld.returnFlights } :=
  complete_handoff_second_call c3AfterWorld "M3" "D2" c3AfterDrone
    rfl rfl rfl rfl rfl rfl rfl
    (by
      intro e he hid
      simp only [c3AfterWorld, List.mem_singleton] at he
      exact he)

/-! ## Claim C9 -/

/-- Claim C9 fails on the code: vertex count is never validated.  A
one-vertex outer ring (fewer than 3 vertices) fed to the perimeter pattern
produces one waypoint, not an empty list. -/
theorem small_ring_perimeter_not_empty :
    (generate_path (some [[(⟨5, 6⟩ : Coordinate)]]) "perimeter" 50 70 10).waypoints.length
        = 1 ∧
      ([(⟨5, 6⟩ : Coordinate)] : List Coordinate).length < 3 :=
  ⟨rfl, by norm_num⟩

/-- Claim C9 amended: the generators return an empty list only when the
survey area is absent or has no coordinates key; the perimeter pattern
emits one waypoint per outer-ring vertex whatever the vertex count, so any
non-empty ring with fewer than 3 vertices still yields waypoints. -/
theorem perimeter_emits_ring_vertices (ring : List Coordinate)
    (altitude overlap speed : ℝ) (h : ring ≠ []) :
    (generate_path (some [ring]) "perimeter" altitude overlap speed).waypoints.length
        = ring.length ∧
      (generate_path (some [ring]) "perimeter" altitude overlap speed).waypoints ≠ [] := by
  have hlen : (generate_path (some [ring]) "perimeter" altitude overlap speed).waypoints.length
      = ring.length := by
    unfold generate_path normalize_survey_area generate_perimeter_path outerRing
    dsimp only
    rw [if_pos rfl]
    simp
  refine ⟨hlen, ?_⟩
  intro hnil
  apply h
  apply List.length_eq_zero.mp
  rw [← hlen, hnil]
  rfl

/-- Witness for the amended C9 on the one-vertex ring. -/
theorem perimeter_emits_ring_vertices_witness :
    (generate_path (some [[(⟨5, 6⟩ : Coordinate)]]) "perimeter" 50 70 10).waypoints.length
        = ([(⟨5, 6⟩ : Coordinate)] : List Coordinate).length ∧
      (generate_path (some [[(⟨5, 6⟩ : Coordinate)]]) "perimeter" 50 70 10).waypoints ≠ [] :=
  perimeter_emits_ring_vertices [⟨5, 6⟩] 50 70 10 (by simp)

/-! ## Claim C8 -/

/-- Each scan-line intersection is a convex combination of the two edge
endpoints' longitudes, hence stays inside any interval containing them. -/
theorem crosshatchIntersections_bounded (coords : List Coordinate) (current_lat : ℝ)
    (hb : ∀ c ∈ coords, -180 ≤ c.lng ∧ c.lng ≤ 180) :
    ∀ x ∈ crosshatchIntersections coords current_lat, -180 ≤ x ∧ x ≤ 180 := by
  intro x hx
  unfold crosshatchIntersections at hx
  rcases List.mem_filterMap.mp hx with ⟨i, hi, hfi⟩
  have hilt : i < coords.length - 1 := List.mem_range.mp hi
  have hi1 : i < coords.length := by omega
  have hi2 : i + 1 < coords.length := by omega
  set c1 := coords.getD i ⟨0, 0⟩ with hc1
  set c2 := coords.getD (i + 1) ⟨0, 0⟩ with hc2
  have hm1 : c1 ∈ coords := by
    rw [hc1, List.getD_eq_getElem coords ⟨0, 0⟩ hi1]
    exact List.getElem_mem hi1
  have hm2 : c2 ∈ coords := by
    rw [hc2, List.getD_eq_getElem coords ⟨0, 0⟩ hi2]
    exact List.getElem_mem hi2
  obtain ⟨hlo1, hhi1⟩ := hb c1 hm1
  obtain ⟨hlo2, hhi2⟩ := hb c2 hm2
  by_cases hcond : (c1.lat ≤ current_lat ∧ current_lat ≤ c2.lat) ∨
      (c2.lat ≤ current_lat ∧ current_lat ≤ c1.lat)
  · rw [if_pos hcond] at hfi
    by_cases hne : c1.lat ≠ c2.lat
    · rw [if_pos hne] at hfi
      have hxval : x = c1.lng + (current_lat - c1.lat) * (c2.lng - c1.lng) / (c2.lat - c1.lat) :=
        (Option.some_inj.mp hfi).symm
      have hdne : c2.lat - c1.lat ≠ 0 := fun hz => hne (by linarith)
      set t : ℝ := (current_lat - c1.lat) / (c2.lat - c1.lat) with ht
      have hxt : x = c1.lng + t * (c2.lng - c1.lng) := by
        rw [hxval, ht]
        field_simp
      have ht01 : 0 ≤ t ∧ t ≤ 1 := by
        rcases hcond with ⟨ha, hbnd⟩ | ⟨ha, hbnd⟩
        · have hlt : c1.lat < c2.lat := lt_of_le_of_ne (le_trans ha hbnd) hne
          constructor
          · apply div_nonneg (by linarith) (by linarith)
          · rw [div_le_one (by linarith)]
            linarith
        · have hlt : c2.lat < c1.lat := lt_of_le_of_ne (le_trans ha hbnd) (Ne.symm hne)
          constructor
          · exact div_nonneg_iff.mpr (Or.inr ⟨by linarith, by linarith⟩)
          · exact div_le_one_iff.mpr (Or.inr (Or.inr ⟨by linarith, by linarith⟩))
      obtain ⟨ht0, ht1⟩ := ht01
      constructor
      · nlinarith [hxt]
      · nlinarith [hxt]
    · rw [if_neg hne] at hfi
      exact absurd hfi (by simp)
  · rw [if_neg hcond] at hfi
    exact absurd hfi (by simp)

/-- Both components of every crosshatch pair come from the input list. -/
theorem crosshatchPairs_mem : ∀ (l : List ℝ), ∀ p ∈ crosshatchPairs l,
    p.1 ∈ l ∧ p.2 ∈ l
  | [] => by simp [crosshatchPairs]
  | [a] => by simp [crosshatchPairs]
  | a :: b :: rest => by
      intro p hp
      rw [show crosshatchPairs (a :: b :: rest) = (a, b) :: crosshatchPairs rest from rfl]
        at hp
      rcases List.mem_cons.mp hp with hq | hq
      · subst hq
        exact ⟨List.mem_cons_self _ _, List.mem_cons_of_mem _ (List.mem_cons_self _ _)⟩
      · have hrec := crosshatchPairs_mem rest p hq
        exact ⟨List.mem_cons_of_mem _ (List.mem_cons_of_mem _ hrec.1),
          List.mem_cons_of_mem _ (List.mem_cons_of_mem _ hrec.2)⟩

/-- Every waypoint of a scan line takes its longitude from the
intersection list. -/
theorem crosshatchLineWaypoints_lng (inters : List ℝ) (direction : Int)
    (current_lat altitude : ℝ) :
    ∀ wp ∈ crosshatchLineWaypoints inters direction current_lat altitude,
      wp.lng ∈ inters := by
  intro wp hwp
  unfold crosshatchLineWaypoints at hwp
  rcases List.mem_flatMap.mp hwp with ⟨p, hp, hwp2⟩
  have hpm := crosshatchPairs_mem inters p hp
  by_cases hdir : direction = 1
  · rw [if_pos hdir] at hwp2
    simp only [List.mem_cons, List.not_mem_nil, or_false] at hwp2
    rcases hwp2 with h | h
    · subst h; exact hpm.1
    · subst h; exact hpm.2
  · rw [if_neg hdir] at hwp2
    simp only [List.mem_cons, List.not_mem_nil, or_false] at hwp2
    rcases hwp2 with h | h
    · subst h; exact hpm.2
    · subst h; exact hpm.1

/-- Longitudes emitted by the crosshatch sweep loop stay in `[-180, 180]`
whenever the polygon's vertices do. -/
theorem crosshatchLoop_lng_bounded (coords : List Coordinate)
    (altitude spacing_degrees max_lat : ℝ)
    (hb : ∀ c ∈ coords, -180 ≤ c.lng ∧ c.lng ≤ 180) :
    ∀ (current_lat : ℝ) (direction : Int) (fuel : Nat),
      ∀ wp ∈ crosshatchLoop coords altitude spacing_degrees max_lat
          current_lat direction fuel,
        -180 ≤ wp.lng ∧ wp.lng ≤ 180 := by
  intro current_lat direction fuel
  induction fuel generalizing current_lat direction with
  | zero => intro wp hwp; cases hwp
  | succ n ih =>
      intro wp hwp
      unfold crosshatchLoop at hwp
      by_cases hlat : current_lat ≤ max_lat
      · rw [if_pos hlat] at hwp
        rcases List.mem_append.mp hwp with h | h
        · have hlng := crosshatchLineWaypoints_lng _ direction current_lat altitude wp h
          have hsorted : wp.lng ∈ crosshatchIntersections coords current_lat :=
            List.mem_mergeSort.mp hlng
          exact crosshatchIntersections_bounded coords current_lat hb wp.lng hsorted
        · exact ih (current_lat + spacing_degrees) (-direction) wp h
      · rw [if_neg hlat] at hwp
        cases hwp

/-- Claim C8 amended: after the planner's pre-normalization, every
waypoint produced for the perimeter, crosshatch and waypoint patterns (any
non-spiral selector) has longitude in `[-180, 180]`; the spiral pattern
can exceed the range (see the counterexample). -/
theorem planner_lng_bounds (area : SurveyArea) (pattern : String)
    (altitude overlap speed : ℝ) (hp : pattern ≠ "spiral") :
    ∀ wp ∈ (generate_path area pattern altitude overlap speed).waypoints,
      -180 ≤ wp.lng ∧ wp.lng ≤ 180 := by
  intro wp hwp
  unfold generate_path at hwp
  dsimp only at hwp
  cases area with
  | none =>
      rw [show normalize_survey_area none = none from rfl] at hwp
      split_ifs at hwp <;>
        simp [generate_perimeter_path, generate_crosshatch_path,
          generate_spiral_path, generate_waypoint_path] at hwp
  | some rings0 =>
      rw [show normalize_survey_area (some rings0)
          = some (rings0.map (fun ring =>
              ring.map (fun c => ⟨normalize_longitude c.lng, c.lat⟩))) from rfl] at hwp
      set rings := rings0.map (fun ring =>
        ring.map (fun c => (⟨normalize_longitude c.lng, c.lat⟩ : Coordinate))) with hrings
      have houter : ∀ c ∈ outerRing rings, -180 ≤ c.lng ∧ c.lng ≤ 180 := by
        intro c hc
        have hcm : c ∈ outerRing rings := hc
        unfold outerRing at hcm
        cases hr : rings with
        | nil => rw [hr] at hcm; cases hcm
        | cons r rs =>
            rw [hr] at hcm
            rw [hr] at hrings
            have hrmem : r ∈ rings0.map (fun ring =>
                ring.map (fun c => (⟨normalize_longitude c.lng, c.lat⟩ : Coordinate))) := by
              rw [← hrings]
              exact List.mem_cons_self _ _
            rcases List.mem_map.mp hrmem with ⟨ring0, _, hre⟩
            rw [← hre] at hcm
            rcases List.mem_map.mp hcm with ⟨c0, _, hce⟩
            rw [← hce]
            exact normalize_longitude_mem c0.lng
      split_ifs at hwp with hper hcross
      · unfold generate_perimeter_path at hwp
        rcases List.mem_map.mp hwp with ⟨c, hc, hwe⟩
        rw [← hwe]
        exact houter c hc
      · unfold generate_crosshatch_path at hwp
        dsimp only at hwp
        cases hmin : (List.map (fun c => c.lat) (outerRing rings)).min? with
        | none => rw [hmin] at hwp; cases hwp
        | some min_lat =>
            rw [hmin] at hwp
            exact crosshatchLoop_lng_bounded (outerRing rings) altitude _ _ houter
              min_lat 1 50 wp hwp
      · unfold generate_waypoint_path at hwp
        dsimp only at hwp
        rcases List.mem_map.mp hwp with ⟨q, hq, hwe⟩
        have hq2 : q.2 ∈ (outerRing rings).dropLast := by
          rw [List.enum_eq_zip_range] at hq
          exact (List.of_mem_zip (by exact hq)).2
        have hqm : q.2 ∈ outerRing rings := List.dropLast_subset _ hq2
        rw [← hwe]
        exact houter q.2 hqm

/-- Witness for the amended C8: the perimeter waypoint generated from the
one-vertex ring `[(5, 6)]` has its longitude within `[-180, 180]`. -/
theorem planner_lng_bounds_witness :
    -180 ≤ (Waypoint.mk 6 (normalize_longitude 5) 50 "photo" 0).lng ∧
      (Waypoint.mk 6 (normalize_longitude 5) 50 "photo" 0).lng ≤ 180 :=
  planner_lng_bounds (some [[⟨5, 6⟩]]) "perimeter" 50 70 10 (by decide)
    (Waypoint.mk 6 (normalize_longitude 5) 50 "photo" 0)
    (by
      rw [show (generate_path (some [[(⟨5, 6⟩ : Coordinate)]]) "perimeter" 50 70 10).waypoints
          = [Waypoint.mk 6 (normalize_longitude 5) 50 "photo" 0] from rfl]
      exact List.mem_singleton_self _)

/-- The survey ring of the C8 counterexample: longitudes 180 and -180 are
already in range, so pre-normalization leaves them untouched. -/
def spiralRing : List Coordinate := [⟨180, 0⟩, ⟨-180, 0⟩, ⟨180, 0⟩]

/-- Claim C8 counterexample: the spiral pattern adds an unnormalized
longitude offset (up to the bounding radius over 111 km per degree) to the
centroid, so the very first spiral waypoint of this polygon sits at
longitude `60 + 6371000·(2π/3)/111000 ≈ 180.2 > 180`. -/
theorem spiral_waypoint_lng_exceeds_180 :
    180 < ((generate_path (some [spiralRing]) "spiral" 50 70 10).waypoints.headD
        default).lng ∧
      (generate_path (some [spiralRing]) "spiral" 50 70 10).waypoints ≠ [] := by
  have hn180 : normalize_longitude 180 = 180 :=
    normalize_longitude_of_mem 180 (by norm_num) (by norm_num)
  have hnm180 : normalize_longitude (-180) = -180 :=
    normalize_longitude_of_mem (-180) (by norm_num) (by norm_num)
  have harea : (generate_path (some [spiralRing]) "spiral" 50 70 10).waypoints
      = generate_spiral_path (some [[⟨180, 0⟩, ⟨-180, 0⟩, ⟨180, 0⟩]]) 50 := by
    unfold generate_path
    dsimp only
    rw [if_neg (by decide), if_neg (by decide), if_pos rfl]
    rw [show normalize_survey_area (some [spiralRing])
        = some [[⟨normalize_longitude 180, 0⟩, ⟨normalize_longitude (-180), 0⟩,
            ⟨normalize_longitude 180, 0⟩]] from rfl]
    rw [hn180, hnm180]
  rw [harea]
  unfold generate_spiral_path
  dsimp only [outerRing, List.headD]
  constructor
  · rw [show List.range (5 * 12) = 0 :: List.map Nat.succ (List.range 59) by
      rw [show (5 * 12 : ℕ) = 59 + 1 from rfl]
      exact List.range_succ_eq_map 59]
    rw [List.map_cons, List.cons_append]
    dsimp only [List.headD, List.map_cons, List.map_nil, List.length_cons,
      List.length_nil, List.sum_cons, List.sum_nil, List.foldl_cons, List.foldl_nil]
    norm_num [radians, Real.cos_zero]
    rw [haversine_60_180, haversine_60_neg180]
    rw [show earthRadius = (6371000 : ℝ) from rfl]
    rw [max_self]
    nlinarith [Real.pi_gt_d6]
  · simp

end DSMS
